import Mathlib

/-!
Verification of the adaptive world-generation core of the BikeAdventure
repository: the biome transition model (`Core/BiomeTypes.cpp`), the path
personality engine (`Systems/PathPersonalitySystem.cpp`), the world
streaming controller (`Systems/WorldStreamingManager.cpp`) and the LOD
governor (`Systems/PerformanceOptimizationSystem.cpp`).

Embedding conventions: Unreal `float` values are modelled as rationals,
`int32` as `Int`, `TArray` as `List`, `TMap` as an association list in
insertion order (the iteration order of a `TMap` that never removes keys).
Calls to the engine random source (`FMath::RandRange(0, N-1)`) are modelled
by an explicit index parameter reduced modulo the candidate count, so that
theorems quantify over every possible random outcome.  `FVector` distance
comparisons `Dist(a,b) > t` are embedded as squared comparisons
`distSq a b > t*t`, which is equivalent for the nonnegative thresholds the
code uses.  Engine-side effects (logging, delegate broadcasts, actor
spawning) are either dropped or, where a result feeds back into the logic,
represented by explicit oracle parameters.
-/

namespace BikeAdventure

/-- Biome enumeration from `Core/BiomeTypes.h` (`EBiomeType`), in declaration
order, including the hidden `None` sentinel. -/
inductive EBiomeType where
  | Forest
  | Beach
  | Desert
  | Urban
  | Countryside
  | Mountains
  | Wetlands
  | None
deriving DecidableEq, Repr, Inhabited

/-- Path personality enumeration from `Core/BiomeTypes.h`
(`EPathPersonality`), including the hidden `None` sentinel. -/
inductive EPathPersonality where
  | Wild
  | Safe
  | Scenic
  | Challenge
  | Mystery
  | Peaceful
  | None
deriving DecidableEq, Repr, Inhabited

/-- `FMath::Clamp(X, Min, Max)`: `X < Min ? Min : (X < Max ? X : Max)`. -/
def FMathClamp (x lo hi : ℚ) : ℚ :=
  if x < lo then lo else if x < hi then x else hi

/-- Transition-rule record from `Core/BiomeTypes.h`
(`FBiomeTransitionRules`).  The defaults are the constructor values; the
switch in `GetDefaultTransitionRules` only ever overrides
`ValidTransitions` (the preferred intersection shapes, which no verified
claim touches, are omitted). -/
structure FBiomeTransitionRules where
  MaxConsecutiveSameBiome : Int := 3
  BaseTransitionProbability : ℚ := 7/10
  ConsecutiveBiomePenalty : ℚ := 3/10
  bAllowImmediateReturn : Bool := false
  ValidTransitions : List EBiomeType := []
deriving DecidableEq, Repr

/-- `UBiomeUtilities::GetDefaultTransitionRules` from `Core/BiomeTypes.cpp`
lines 111-212. -/
def GetDefaultTransitionRules : EBiomeType → FBiomeTransitionRules
  | .Forest => { ValidTransitions := [.Mountains, .Countryside, .Wetlands] }
  | .Beach => { ValidTransitions := [.Urban, .Countryside, .Wetlands] }
  | .Desert => { ValidTransitions := [.Mountains, .Urban, .Countryside] }
  | .Urban => { ValidTransitions := [.Beach, .Desert, .Countryside] }
  | .Countryside =>
      { ValidTransitions := [.Forest, .Beach, .Desert, .Urban, .Mountains] }
  | .Mountains => { ValidTransitions := [.Forest, .Desert, .Countryside] }
  | .Wetlands => { ValidTransitions := [.Forest, .Beach, .Countryside] }
  | .None => {}

/-- `UBiomeUtilities::CanBiomesTransition` from `Core/BiomeTypes.cpp`
lines 214-223. -/
def CanBiomesTransition (FromBiome ToBiome : EBiomeType) : Bool :=
  if FromBiome = .None ∨ ToBiome = .None then false
  else decide (ToBiome ∈ (GetDefaultTransitionRules FromBiome).ValidTransitions)

/-- The backward scan of `RecentBiomes` counting entries equal to
`CurrentBiome`, shared by `GetRandomValidTransition` and
`CalculateTransitionProbability` (the length of the trailing run). -/
def consecutiveCount (CurrentBiome : EBiomeType) (RecentBiomes : List EBiomeType) : Nat :=
  (RecentBiomes.reverse.takeWhile (fun b => decide (b = CurrentBiome))).length

/-- `UBiomeUtilities::CalculateTransitionProbability` from
`Core/BiomeTypes.cpp` lines 268-297. -/
def CalculateTransitionProbability (CurrentBiome TargetBiome : EBiomeType)
    (RecentBiomes : List EBiomeType) : ℚ :=
  if CanBiomesTransition CurrentBiome TargetBiome = false then 0
  else
    let Rules := GetDefaultTransitionRules CurrentBiome
    let ConsecutiveCount := consecutiveCount CurrentBiome RecentBiomes
    let Probability :=
      if TargetBiome = CurrentBiome then
        Rules.BaseTransitionProbability *
          Rules.ConsecutiveBiomePenalty ^ ConsecutiveCount
      else if 0 < RecentBiomes.length ∧ RecentBiomes.getLast? = some TargetBiome ∧
          Rules.bAllowImmediateReturn = false then
        Rules.BaseTransitionProbability * (1/10)
      else
        Rules.BaseTransitionProbability
    FMathClamp Probability 0 1

/-- The candidate-filtering step of
`UBiomeUtilities::GetRandomValidTransition` (`Core/BiomeTypes.cpp` lines
225-266): with a nonempty history, drop the immediately preceding biome
unless immediate returns are allowed, and drop the current biome once its
trailing run reaches `MaxConsecutiveSameBiome`.  `TArray::Remove` deletes
every occurrence of the item, embedded as `List.filter`. -/
def filterTransitionOptions (Rules : FBiomeTransitionRules)
    (CurrentBiome : EBiomeType) (RecentBiomes : List EBiomeType) :
    List EBiomeType :=
  if 0 < RecentBiomes.length then
    let afterPrev :=
      if Rules.bAllowImmediateReturn = false then
        match RecentBiomes.getLast? with
        | some PreviousBiome =>
            Rules.ValidTransitions.filter (fun b => decide (b ≠ PreviousBiome))
        | Option.none => Rules.ValidTransitions
      else Rules.ValidTransitions
    if Rules.MaxConsecutiveSameBiome ≤ (consecutiveCount CurrentBiome RecentBiomes : Int) then
      afterPrev.filter (fun b => decide (b ≠ CurrentBiome))
    else afterPrev
  else Rules.ValidTransitions

/-- The final uniform draw of `GetRandomValidTransition` (lines 258-265):
the ultimate fallback `Countryside` on an empty candidate list, otherwise
the entry at the drawn index. -/
def selectOption (l : List EBiomeType) (randIndex : Nat) : EBiomeType :=
  match l with
  | [] => EBiomeType.Countryside
  | x :: xs =>
      (x :: xs).get ⟨randIndex % (x :: xs).length, Nat.mod_lt _ (Nat.succ_pos _)⟩

/-- `UBiomeUtilities::GetRandomValidTransition` from `Core/BiomeTypes.cpp`
lines 225-266: filter, fall back to the unfiltered valid transitions on an
empty result, then draw.  `randIndex` models the value drawn by
`FMath::RandRange(0, ValidOptions.Num() - 1)`; it is reduced modulo the
candidate count, so quantifying over `randIndex` covers every possible
draw. -/
def GetRandomValidTransitionIdx (CurrentBiome : EBiomeType)
    (RecentBiomes : List EBiomeType) (randIndex : Nat) : EBiomeType :=
  let Rules := GetDefaultTransitionRules CurrentBiome
  let ValidOptions := filterTransitionOptions Rules CurrentBiome RecentBiomes
  let ValidOptions :=
    if ValidOptions = [] then Rules.ValidTransitions else ValidOptions
  selectOption ValidOptions randIndex

/-- Path-characteristics record from `Systems/PathPersonalitySystem.h`
(`FPathCharacteristics`) with its constructor defaults.  The presentational
string fields `SurfaceType` and `LightingCondition`, which no numeric logic
reads, are omitted. -/
structure FPathCharacteristics where
  PathPersonality : EPathPersonality := .None
  DifficultyLevel : ℚ := 1/2
  SceneryRating : ℚ := 1/2
  WildlifeEncounterRate : ℚ := 3/10
  DiscoveryProbability : ℚ := 1/5
  PathWidth : ℚ := 400
  Windiness : ℚ := 1/2
  ElevationChange : ℚ := 0
  WeatherResistance : ℚ := 1/2
deriving DecidableEq, Repr

/-- The `DefaultPathCharacteristics` map as populated by
`UPathPersonalitySystem::InitializePersonalityCharacteristics`
(`Systems/PathPersonalitySystem.cpp` lines 536-618).  `TMap::Find` on a
missing key (the `None` personality) yields null, embedded as `none`. -/
def DefaultPathCharacteristics : EPathPersonality → Option FPathCharacteristics
  | .Wild => some
      { PathPersonality := .Wild, DifficultyLevel := 7/10,
        SceneryRating := 6/10, WildlifeEncounterRate := 8/10,
        DiscoveryProbability := 6/10, PathWidth := 300, Windiness := 7/10,
        WeatherResistance := 3/10 }
  | .Safe => some
      { PathPersonality := .Safe, DifficultyLevel := 2/10,
        SceneryRating := 5/10, WildlifeEncounterRate := 2/10,
        DiscoveryProbability := 3/10, PathWidth := 500, Windiness := 2/10,
        WeatherResistance := 8/10 }
  | .Scenic => some
      { PathPersonality := .Scenic, DifficultyLevel := 4/10,
        SceneryRating := 9/10, WildlifeEncounterRate := 4/10,
        DiscoveryProbability := 5/10, PathWidth := 400, Windiness := 5/10,
        WeatherResistance := 6/10 }
  | .Challenge => some
      { PathPersonality := .Challenge, DifficultyLevel := 9/10,
        SceneryRating := 7/10, WildlifeEncounterRate := 5/10,
        DiscoveryProbability := 8/10, PathWidth := 250, Windiness := 8/10,
        ElevationChange := 50, WeatherResistance := 2/10 }
  | .Mystery => some
      { PathPersonality := .Mystery, DifficultyLevel := 6/10,
        SceneryRating := 7/10, WildlifeEncounterRate := 6/10,
        DiscoveryProbability := 9/10, PathWidth := 350, Windiness := 6/10,
        WeatherResistance := 4/10 }
  | .Peaceful => some
      { PathPersonality := .Peaceful, DifficultyLevel := 3/10,
        SceneryRating := 8/10, WildlifeEncounterRate := 3/10,
        DiscoveryProbability := 4/10, PathWidth := 450, Windiness := 3/10,
        WeatherResistance := 7/10 }
  | .None => Option.none

/-- `UPathPersonalitySystem::ApplyBiomeModifiers` from
`Systems/PathPersonalitySystem.cpp` lines 671-730: biome-specific
multiplicative adjustments followed by a clamp of every bounded field. -/
def ApplyBiomeModifiers (C0 : FPathCharacteristics) (BiomeType : EBiomeType) :
    FPathCharacteristics :=
  let C :=
    match BiomeType with
    | .Forest => { C0 with
        WildlifeEncounterRate := C0.WildlifeEncounterRate * (13/10),
        PathWidth := C0.PathWidth * (9/10),
        Windiness := C0.Windiness * (12/10) }
    | .Urban => { C0 with
        DifficultyLevel := C0.DifficultyLevel * (7/10),
        WildlifeEncounterRate := C0.WildlifeEncounterRate * (3/10),
        PathWidth := C0.PathWidth * (12/10),
        WeatherResistance := C0.WeatherResistance * (13/10) }
    | .Mountains => { C0 with
        DifficultyLevel := C0.DifficultyLevel * (13/10),
        ElevationChange := C0.ElevationChange + 30,
        SceneryRating := C0.SceneryRating * (12/10) }
    | .Beach => { C0 with
        SceneryRating := C0.SceneryRating * (13/10),
        PathWidth := C0.PathWidth * (11/10),
        WeatherResistance := C0.WeatherResistance * (8/10) }
    | .Desert => { C0 with
        WildlifeEncounterRate := C0.WildlifeEncounterRate * (5/10),
        WeatherResistance := C0.WeatherResistance * (6/10),
        Windiness := C0.Windiness * (7/10) }
    | .Countryside => { C0 with
        DifficultyLevel := C0.DifficultyLevel * (8/10),
        SceneryRating := C0.SceneryRating * (11/10),
        WeatherResistance := C0.WeatherResistance * (11/10) }
    | .Wetlands => { C0 with
        WildlifeEncounterRate := C0.WildlifeEncounterRate * (14/10),
        DiscoveryProbability := C0.DiscoveryProbability * (12/10),
        Windiness := C0.Windiness * (11/10) }
    | .None => C0
  { C with
    DifficultyLevel := FMathClamp C.DifficultyLevel 0 1,
    SceneryRating := FMathClamp C.SceneryRating 0 1,
    WildlifeEncounterRate := FMathClamp C.WildlifeEncounterRate 0 1,
    DiscoveryProbability := FMathClamp C.DiscoveryProbability 0 1,
    WeatherResistance := FMathClamp C.WeatherResistance 0 1,
    Windiness := FMathClamp C.Windiness 0 1,
    PathWidth := FMathClamp C.PathWidth 100 1000 }

/-- The start value of `GeneratePathCharacteristics` (lines 63-70): the
personality's default preset, or a default-constructed record when the
personality (the hidden `None`) has no table entry. -/
def defaultOrEmpty (Personality : EPathPersonality) : FPathCharacteristics :=
  match DefaultPathCharacteristics Personality with
  | some D => D
  | Option.none => {}

/-- `UPathPersonalitySystem::GeneratePathCharacteristics` from
`Systems/PathPersonalitySystem.cpp` lines 61-108.  `RandomFactor` models
the value of `RandomStream.FRandRange(0.9f, 1.1f)`.  Note that the final
clamp covers the five fields the code lists (lines 101-105); `Windiness`
and `PathWidth` are not re-clamped there. -/
def GeneratePathCharacteristics (Personality : EPathPersonality)
    (BiomeType : EBiomeType) (bIsLeftPath : Bool) (RandomFactor : ℚ) :
    FPathCharacteristics :=
  let C0 : FPathCharacteristics := defaultOrEmpty Personality
  let C1 := ApplyBiomeModifiers C0 BiomeType
  let C2 :=
    if bIsLeftPath then
      { C1 with
        DifficultyLevel := FMathClamp (C1.DifficultyLevel + 1/10) 0 1,
        WildlifeEncounterRate := FMathClamp (C1.WildlifeEncounterRate + 15/100) 0 1,
        PathWidth := C1.PathWidth * (9/10),
        Windiness := FMathClamp (C1.Windiness + 1/10) 0 1 }
    else
      { C1 with
        SceneryRating := FMathClamp (C1.SceneryRating + 15/100) 0 1,
        DifficultyLevel := FMathClamp (C1.DifficultyLevel - 1/10) 0 1,
        PathWidth := C1.PathWidth * (11/10),
        WeatherResistance := FMathClamp (C1.WeatherResistance + 1/10) 0 1 }
  let C3 :=
    { C2 with
      DifficultyLevel := C2.DifficultyLevel * RandomFactor,
      SceneryRating := C2.SceneryRating * RandomFactor,
      WildlifeEncounterRate := C2.WildlifeEncounterRate * RandomFactor,
      DiscoveryProbability := C2.DiscoveryProbability * RandomFactor }
  { C3 with
    DifficultyLevel := FMathClamp C3.DifficultyLevel 0 1,
    SceneryRating := FMathClamp C3.SceneryRating 0 1,
    WildlifeEncounterRate := FMathClamp C3.WildlifeEncounterRate 0 1,
    DiscoveryProbability := FMathClamp C3.DiscoveryProbability 0 1,
    WeatherResistance := FMathClamp C3.WeatherResistance 0 1 }

/-- Personality-to-weight table, embedding
`TMap<EPathPersonality, float>` as an association list in insertion
order. -/
abbrev WeightMap := List (EPathPersonality × ℚ)

/-- Path-generation-rule record from `Systems/PathPersonalitySystem.h`
(`FPathGenerationRules`); only the fields the verified logic reads are
kept. -/
structure FPathGenerationRules where
  BiomeType : EBiomeType := .None
  LeftPathBias : ℚ := 1/2
  RightPathBias : ℚ := 1/2
  AllowedPersonalities : List EPathPersonality := []
  PersonalityWeights : WeightMap := []
deriving DecidableEq, Repr

/-- The `BiomeGenerationRules` map as populated by
`UPathPersonalitySystem::InitializeBiomeRules`
(`Systems/PathPersonalitySystem.cpp` lines 455-534).  The loop runs over
the enum indices of `Forest` through `Wetlands`, so the `None` sentinel
has no entry; every entry has `LeftPathBias = 0.6` and
`RightPathBias = 0.7`. -/
def BiomeGenerationRules : EBiomeType → Option FPathGenerationRules
  | .Forest => some
      { BiomeType := .Forest, LeftPathBias := 6/10,
        RightPathBias := 7/10,
        AllowedPersonalities := [.Wild, .Mystery, .Scenic, .Peaceful],
        PersonalityWeights :=
        [(.Wild, 12/10), (.Mystery, 11/10), (.Scenic, 9/10), (.Peaceful, 8/10)] }
  | .Urban => some
      { BiomeType := .Urban, LeftPathBias := 6/10,
        RightPathBias := 7/10,
        AllowedPersonalities := [.Safe, .Scenic, .Challenge],
        PersonalityWeights := [(.Safe, 13/10), (.Scenic, 9/10), (.Challenge, 7/10)] }
  | .Mountains => some
      { BiomeType := .Mountains, LeftPathBias := 6/10,
        RightPathBias := 7/10,
        AllowedPersonalities := [.Challenge, .Scenic, .Wild],
        PersonalityWeights := [(.Challenge, 13/10), (.Scenic, 12/10), (.Wild, 1)] }
  | .Beach => some
      { BiomeType := .Beach, LeftPathBias := 6/10,
        RightPathBias := 7/10,
        AllowedPersonalities := [.Scenic, .Peaceful, .Safe],
        PersonalityWeights := [(.Scenic, 14/10), (.Peaceful, 12/10), (.Safe, 1)] }
  | .Countryside => some
      { BiomeType := .Countryside, LeftPathBias := 6/10,
        RightPathBias := 7/10,
        AllowedPersonalities := [.Peaceful, .Scenic, .Safe],
        PersonalityWeights := [(.Peaceful, 13/10), (.Scenic, 11/10), (.Safe, 1)] }
  | .Desert => some
      { BiomeType := .Desert, LeftPathBias := 6/10,
        RightPathBias := 7/10,
        AllowedPersonalities := [.Challenge, .Peaceful, .Mystery],
        PersonalityWeights := [(.Challenge, 11/10), (.Peaceful, 1), (.Mystery, 8/10)] }
  | .Wetlands => some
      { BiomeType := .Wetlands, LeftPathBias := 6/10,
        RightPathBias := 7/10,
        AllowedPersonalities := [.Mystery, .Wild, .Scenic],
        PersonalityWeights := [(.Mystery, 13/10), (.Wild, 11/10), (.Scenic, 9/10)] }
  | .None => Option.none

/-- Player-choice-history record from `Systems/PathPersonalitySystem.h`
(`FPlayerChoiceHistory`). -/
structure FPlayerChoiceHistory where
  TotalChoices : Int := 0
  LeftChoices : Int := 0
  RightChoices : Int := 0
  RecentChoices : List Bool := []
  RecentBiomes : List EBiomeType := []
  RecentPersonalities : List EPathPersonality := []
  PreferredPersonality : EPathPersonality := .None
  AdaptiveWeight : ℚ := 1/2
  PersonalityPreferences : WeightMap := []
deriving DecidableEq, Repr

/-- The player-preference pass of
`UPathPersonalitySystem::CalculatePersonalityWeights` (lines 658-666):
for each recorded preference, a weight already present in the map is
multiplied by `(1 + preference)`; absent personalities are skipped. -/
def applyPreferenceBoost (W : WeightMap) (prefs : WeightMap) : WeightMap :=
  prefs.foldl
    (fun acc pk =>
      acc.map (fun kv => if kv.1 = pk.1 then (kv.1, kv.2 * (1 + pk.2)) else kv))
    W

/-- `UPathPersonalitySystem::CalculatePersonalityWeights` from
`Systems/PathPersonalitySystem.cpp` lines 641-669. -/
def CalculatePersonalityWeights (BiomeType : EBiomeType)
    (PlayerHistory : FPlayerChoiceHistory) : WeightMap :=
  let W :=
    match BiomeGenerationRules BiomeType with
    | some Rules => Rules.PersonalityWeights
    | Option.none => [(.Peaceful, 1), (.Scenic, 1)]
  applyPreferenceBoost W PlayerHistory.PersonalityPreferences

/-- The per-personality side-bias multiplier applied by
`DeterminePathPersonality` (lines 126-150): Wild/Challenge/Mystery favor
left paths, Safe/Scenic/Peaceful favor right paths, and the hidden `None`
personality falls through unchanged. -/
def sideBiasFactor (bIsLeftPath : Bool) (BiasMultiplier : ℚ) :
    EPathPersonality → ℚ
  | .Wild | .Challenge | .Mystery =>
      if bIsLeftPath then 1 + BiasMultiplier else 1 - BiasMultiplier * (1/2)
  | .Safe | .Scenic | .Peaceful =>
      if bIsLeftPath then 1 - BiasMultiplier * (1/2) else 1 + BiasMultiplier
  | .None => 1

/-- The side-bias pass over the whole weight map (lines 126-150). -/
def applySideBias (bIsLeftPath : Bool) (BiasMultiplier : ℚ) (W : WeightMap) :
    WeightMap :=
  W.map (fun kv => (kv.1, kv.2 * sideBiasFactor bIsLeftPath BiasMultiplier kv.1))

/-- `PersonalityWeights[Key] *= M` where `TMap::operator[]` is `FindChecked`:
it asserts (crashing the process) when the key is absent, embedded as
`none`. -/
def TMapIndexMul (W : WeightMap) (Key : EPathPersonality) (M : ℚ) :
    Option WeightMap :=
  if Key ∈ W.map Prod.fst then
    some (W.map (fun kv => if kv.1 = Key then (kv.1, kv.2 * M) else kv))
  else Option.none

/-- The biome-transition-context pass of `DeterminePathPersonality`
(lines 152-189), with its unchecked `TMap::operator[]` accesses. -/
def ApplyBiomeTransitionContext (ToBiome : EBiomeType) (W : WeightMap) :
    Option WeightMap :=
  match ToBiome with
  | .Forest | .Mountains | .Wetlands =>
      (TMapIndexMul W .Wild (13/10)).bind
        (fun W1 => TMapIndexMul W1 .Mystery (12/10))
  | .Urban =>
      (TMapIndexMul W .Safe (14/10)).bind
        (fun W1 => TMapIndexMul W1 .Scenic (8/10))
  | .Countryside =>
      (TMapIndexMul W .Peaceful (13/10)).bind
        (fun W1 => TMapIndexMul W1 .Scenic (12/10))
  | .Beach =>
      (TMapIndexMul W .Scenic (14/10)).bind
        (fun W1 => TMapIndexMul W1 .Peaceful (12/10))
  | .Desert =>
      (TMapIndexMul W .Challenge (12/10)).bind
        (fun W1 => TMapIndexMul W1 .Peaceful (11/10))
  | _ => some W

/-- The weighted-random walk of `DeterminePathPersonality` (lines 203-215):
accumulate weights in iteration order until the drawn value is covered,
falling back to `Peaceful` if the loop finishes. -/
def weightedSelectAux : WeightMap → ℚ → ℚ → EPathPersonality
  | [], _, _ => .Peaceful
  | kv :: rest, RandomValue, CurrentWeight =>
      if RandomValue ≤ CurrentWeight + kv.2 then kv.1
      else weightedSelectAux rest RandomValue (CurrentWeight + kv.2)

/-- `UPathPersonalitySystem::DeterminePathPersonality` from
`Systems/PathPersonalitySystem.cpp` lines 110-216, after `Initialize`.
`RandomValue` models `RandomStream.FRandRange(0.0f, TotalWeight)`.  The
result is `none` exactly when an unchecked `TMap::operator[]` access in
the biome-context pass hits a missing key, i.e. when the C++ `check`
assertion fires and the process crashes. -/
def DeterminePathPersonality (FromBiome ToBiome : EBiomeType)
    (bIsLeftPath : Bool) (PlayerHistory : FPlayerChoiceHistory)
    (RandomValue : ℚ) : Option EPathPersonality :=
  match BiomeGenerationRules ToBiome with
  | Option.none => some .Peaceful
  | some Rules =>
    let W0 := CalculatePersonalityWeights ToBiome PlayerHistory
    let BiasMultiplier := if bIsLeftPath then Rules.LeftPathBias else Rules.RightPathBias
    let W1 := applySideBias bIsLeftPath BiasMultiplier W0
    (ApplyBiomeTransitionContext ToBiome W1).map (fun W2 =>
      let TotalWeight := (W2.map Prod.snd).sum
      if TotalWeight ≤ 0 then .Peaceful
      else weightedSelectAux W2 RandomValue 0)

/-- Integer grid coordinate (`FIntVector`). -/
structure FIntVector where
  X : Int
  Y : Int
  Z : Int
deriving DecidableEq, Repr

/-- Rational 3-vector standing in for `FVector`. -/
structure Vec3 where
  x : ℚ
  y : ℚ
  z : ℚ
deriving DecidableEq, Repr

/-- Componentwise vector addition. -/
def Vec3.add (a b : Vec3) : Vec3 := ⟨a.x + b.x, a.y + b.y, a.z + b.z⟩

/-- Scalar multiplication. -/
def Vec3.scale (s : ℚ) (a : Vec3) : Vec3 := ⟨a.x * s, a.y * s, a.z * s⟩

/-- Squared Euclidean distance; a comparison `FVector::Dist(a,b) > t` is
embedded as `Vec3.distSq a b > t * t`, equivalent for the nonnegative
thresholds the streaming code uses. -/
def Vec3.distSq (a b : Vec3) : ℚ :=
  (a.x - b.x) ^ 2 + (a.y - b.y) ^ 2 + (a.z - b.z) ^ 2

/-- World-section record from `Systems/WorldStreamingManager.h`
(`FWorldSection`) with its constructor defaults.  The derived
`WorldBounds` box and the engine handles (`StreamingLevel`, `PCGActors`,
`IntersectionActor`), which no verified logic reads back, are omitted. -/
structure FWorldSection where
  SectionCoordinates : FIntVector := ⟨0, 0, 0⟩
  BiomeType : EBiomeType := .None
  WorldPosition : Vec3 := ⟨0, 0, 0⟩
  bIsLoaded : Bool := false
  bIsVisible : Bool := false
  LastAccessTime : ℚ := 0
  MemoryUsageKB : Int := 0
  bHasIntersection : Bool := false
deriving DecidableEq, Repr

/-- The streaming settings fixed by `UWorldStreamingManager::Initialize`
(`Systems/WorldStreamingManager.cpp` lines 10-35) and never written again
by the verified operations. -/
structure StreamingConfig where
  MaxStreamingDistanceCm : ℚ := 500000
  MaxActiveSections : Int := 9
  SectionSizeCm : ℚ := 200000
  MaxMemoryBudgetKB : Int := 4194304
  UnloadTimeThreshold : ℚ := 30
deriving DecidableEq, Repr

/-- The `ActiveSections` map (`TMap<FIntVector, FWorldSection>`) as an
association list in insertion order. -/
abbrev SectionMap := List (FIntVector × FWorldSection)

/-- `TMap::Find`: the first entry with the given key, if any. -/
def mapFind (c : FIntVector) : SectionMap → Option FWorldSection
  | [] => Option.none
  | kv :: t => if kv.1 = c then some kv.2 else mapFind c t

/-- In-place mutation of the entry at a key (the effect of writing through
`TMap::Find` / `operator[]`). -/
def mapUpdate (c : FIntVector) (v : FWorldSection) (m : SectionMap) : SectionMap :=
  m.map (fun kv => if kv.1 = c then (c, v) else kv)

/-- `UWorldStreamingManager::GetTotalMemoryUsageKB`
(`Systems/WorldStreamingManager.cpp` lines 278-288). -/
def GetTotalMemoryUsageKB (Active : SectionMap) : Int :=
  (Active.map (fun kv => kv.2.MemoryUsageKB)).sum

/-- `UWorldStreamingManager::IsWithinMemoryBudget` (lines 290-293). -/
def IsWithinMemoryBudget (cfg : StreamingConfig) (Active : SectionMap) : Bool :=
  decide (GetTotalMemoryUsageKB Active < cfg.MaxMemoryBudgetKB)

/-- `UWorldStreamingManager::WorldToSectionCoordinates` (lines 295-302):
componentwise `FMath::FloorToInt` of the position divided by the section
size. -/
def WorldToSectionCoordinates (cfg : StreamingConfig) (WorldLocation : Vec3) :
    FIntVector :=
  ⟨⌊WorldLocation.x / cfg.SectionSizeCm⌋,
   ⌊WorldLocation.y / cfg.SectionSizeCm⌋,
   ⌊WorldLocation.z / cfg.SectionSizeCm⌋⟩

/-- `UWorldStreamingManager::SectionCoordinatesToWorld` (lines 304-311):
the section center, `coordinate * S + S * 0.5` per component. -/
def SectionCoordinatesToWorld (cfg : StreamingConfig) (c : FIntVector) : Vec3 :=
  ⟨(c.X : ℚ) * cfg.SectionSizeCm + cfg.SectionSizeCm * (1/2),
   (c.Y : ℚ) * cfg.SectionSizeCm + cfg.SectionSizeCm * (1/2),
   (c.Z : ℚ) * cfg.SectionSizeCm + cfg.SectionSizeCm * (1/2)⟩

/-- `UWorldStreamingManager::UnloadSection` (lines 413-463): a no-op when
the section is absent or not loaded; otherwise the owned content is
destroyed and the entry is removed from the active map. -/
def UnloadSection (c : FIntVector) (Active : SectionMap) : SectionMap :=
  match mapFind c Active with
  | Option.none => Active
  | some Section =>
      if Section.bIsLoaded = false then Active
      else Active.filter (fun kv => decide (kv.1 ≠ c))

/-- The per-section unload test of
`UWorldStreamingManager::CleanupDistantSections` (lines 106-137). -/
def shouldUnloadSection (cfg : StreamingConfig) (PlayerLocation : Vec3)
    (bForceCleanup : Bool) (CurrentTime : ℚ) (Section : FWorldSection) : Bool :=
  if bForceCleanup then
    decide (Vec3.distSq Section.WorldPosition PlayerLocation >
      (cfg.SectionSizeCm * (15/10)) * (cfg.SectionSizeCm * (15/10)))
  else
    decide (Vec3.distSq Section.WorldPosition PlayerLocation >
      cfg.MaxStreamingDistanceCm * cfg.MaxStreamingDistanceCm) ||
    decide (CurrentTime - Section.LastAccessTime > cfg.UnloadTimeThreshold)

/-- `UWorldStreamingManager::CleanupDistantSections` (lines 99-150):
collect the sections that should unload, then run `UnloadSection` on each
collected coordinate. -/
def CleanupDistantSections (cfg : StreamingConfig) (Active : SectionMap)
    (PlayerLocation : Vec3) (bForceCleanup : Bool) (CurrentTime : ℚ) :
    SectionMap :=
  let SectionsToUnload :=
    (Active.filter
      (fun kv => shouldUnloadSection cfg PlayerLocation bForceCleanup CurrentTime kv.2)).map
      Prod.fst
  SectionsToUnload.foldl (fun acc c => UnloadSection c acc) Active

/-- `UWorldStreamingManager::CreateWorldSection` (lines 313-335). -/
def CreateWorldSection (cfg : StreamingConfig) (SectionCoordinates : FIntVector)
    (BiomeType : EBiomeType) (CurrentTime : ℚ) : FWorldSection :=
  { SectionCoordinates := SectionCoordinates
    BiomeType := BiomeType
    WorldPosition := SectionCoordinatesToWorld cfg SectionCoordinates
    bIsLoaded := false
    bIsVisible := false
    LastAccessTime := CurrentTime
    MemoryUsageKB := 0
    bHasIntersection := false }

/-- `UWorldStreamingManager::CalculateSectionMemoryUsage` (lines 486-516).
The code multiplies the `int32` base by a `float` and truncates back:
`10240 * 1.5f = 15360`, `10240 * 1.3f = 13311`, `10240 * 0.7f = 7167`,
`10240 * 0.8f = 8192` (the nearest `float` to `1.3` is slightly below
`1.3` and the nearest to `0.7` slightly below `0.7`, so those two products
truncate one below the exact value). -/
def CalculateSectionMemoryUsage (Section : FWorldSection) : Int :=
  let BaseMemoryKB : Int :=
    match Section.BiomeType with
    | .Forest => 15360
    | .Urban => 13311
    | .Desert => 7167
    | .Beach => 8192
    | _ => 10240
  if Section.bHasIntersection then BaseMemoryKB + 2048 else BaseMemoryKB

/-- Outcomes of the engine calls inside
`UWorldStreamingManager::LoadSection` that feed back into the
bookkeeping: whether `LoadLevelInstance` returned a level, whether the
`BiomeGenerator` reference is non-null, and whether the spawned
intersection actor is non-null. -/
structure LoadOracle where
  levelLoadOk : Bool := true
  generatorOk : Bool := true
  spawnOk : Bool := true
deriving DecidableEq, Repr

/-- `UWorldStreamingManager::LoadSection` (lines 337-411), restricted to
its effect on the active-section map: mark the section loaded, decide the
intersection flag from `|x + y| % 3 == 0` and the spawn result, and store
the estimated memory usage.  The left/right biome draws feed only the
spawned actor and are dropped. -/
def LoadSection (Active : SectionMap) (c : FIntVector) (o : LoadOracle) :
    SectionMap :=
  match mapFind c Active with
  | Option.none => Active
  | some Section =>
    if Section.bIsLoaded then Active
    else if o.levelLoadOk = false then Active
    else
      let S1 := { Section with bIsLoaded := true }
      let S2 :=
        if o.generatorOk = true ∧ (c.X + c.Y).natAbs % 3 = 0 then
          { S1 with bHasIntersection := o.spawnOk }
        else S1
      let S3 := { S2 with MemoryUsageKB := CalculateSectionMemoryUsage S2 }
      mapUpdate c S3 Active

/-- The target coordinate of `StreamInBiomeSection` (line 54):
`WorldToSectionCoordinates(PlayerLocation + Direction * SectionSizeCm)`. -/
def targetSectionCoords (cfg : StreamingConfig)
    (PlayerLocation Direction : Vec3) : FIntVector :=
  WorldToSectionCoordinates cfg
    (Vec3.add PlayerLocation (Vec3.scale cfg.SectionSizeCm Direction))

/-- The capacity step of `StreamInBiomeSection` (lines 73-77): when the
active-section count has reached the cap, run a forced cleanup of the
sections farther than `1.5 * SectionSize` from the player. -/
def afterForcedCleanup (cfg : StreamingConfig) (Active : SectionMap)
    (PlayerLocation : Vec3) (CurrentTime : ℚ) : SectionMap :=
  if cfg.MaxActiveSections ≤ (Active.length : Int) then
    CleanupDistantSections cfg Active PlayerLocation true CurrentTime
  else Active

/-- `UWorldStreamingManager::StreamInBiomeSection` (lines 52-97).  The
result is the new active map, the boolean return value, and whether the
memory-budget-exceeded delegate was broadcast. -/
def StreamInBiomeSection (cfg : StreamingConfig) (Active : SectionMap)
    (PlayerLocation : Vec3) (BiomeType : EBiomeType) (Direction : Vec3)
    (CurrentTime : ℚ) (o : LoadOracle) : SectionMap × Bool × Bool :=
  let SectionCoords := targetSectionCoords cfg PlayerLocation Direction
  match mapFind SectionCoords Active with
  | some ExistingSection =>
      (mapUpdate SectionCoords
        { ExistingSection with LastAccessTime := CurrentTime } Active,
       true, false)
  | Option.none =>
    if IsWithinMemoryBudget cfg Active = false then
      (Active, false, true)
    else
      let Active1 := afterForcedCleanup cfg Active PlayerLocation CurrentTime
      if cfg.MaxActiveSections ≤ (Active1.length : Int) then
        (Active1, false, false)
      else
        let NewSection := CreateWorldSection cfg SectionCoords BiomeType CurrentTime
        let Active2 := Active1 ++ [(SectionCoords, NewSection)]
        (LoadSection Active2 SectionCoords o, true, false)

/-- Per-biome LOD table entry from
`Systems/PerformanceOptimizationSystem.h` (`FBiomeLODConfig`). -/
structure FBiomeLODConfig where
  LOD0Distance : ℚ
  LOD1Distance : ℚ
  LOD2Distance : ℚ
  CullingDistance : ℚ
  bEnableLOD : Bool := true
  ParticleLODMultiplier : ℚ := 1
deriving DecidableEq, Repr

/-- The `BiomeLODConfigs` map as populated by
`UPerformanceOptimizationSystem::InitializeDefaultLODConfigs`
(`Systems/PerformanceOptimizationSystem.cpp` lines 554-618). -/
def BiomeLODConfigs : EBiomeType → Option FBiomeLODConfig
  | .Forest => some
      { LOD0Distance := 800, LOD1Distance := 2500, LOD2Distance := 5000,
        CullingDistance := 8000, ParticleLODMultiplier := 8/10 }
  | .Urban => some
      { LOD0Distance := 1200, LOD1Distance := 3500, LOD2Distance := 6000,
        CullingDistance := 10000, ParticleLODMultiplier := 6/10 }
  | .Desert => some
      { LOD0Distance := 1500, LOD1Distance := 4000, LOD2Distance := 8000,
        CullingDistance := 12000, ParticleLODMultiplier := 1 }
  | .Beach => some
      { LOD0Distance := 1200, LOD1Distance := 3000, LOD2Distance := 6000,
        CullingDistance := 10000, ParticleLODMultiplier := 9/10 }
  | .Mountains => some
      { LOD0Distance := 1000, LOD1Distance := 3000, LOD2Distance := 7000,
        CullingDistance := 12000, ParticleLODMultiplier := 7/10 }
  | .Countryside => some
      { LOD0Distance := 1000, LOD1Distance := 3000, LOD2Distance := 6000,
        CullingDistance := 10000, ParticleLODMultiplier := 1 }
  | .Wetlands => some
      { LOD0Distance := 800, LOD1Distance := 2500, LOD2Distance := 5000,
        CullingDistance := 8000, ParticleLODMultiplier := 8/10 }
  | .None => Option.none

/-- `UPerformanceOptimizationSystem::CalculateLODLevel`
(`Systems/PerformanceOptimizationSystem.cpp` lines 386-422), with the
adaptive `CurrentLODBias` member as an explicit argument.  `-1` is the
cull value. -/
def CalculateLODLevel (CurrentLODBias : ℚ) (Distance : ℚ)
    (BiomeType : EBiomeType) : Int :=
  let Config :=
    match BiomeLODConfigs BiomeType with
    | some C => some C
    | Option.none => BiomeLODConfigs .Countryside
  match Config with
  | Option.none => 0
  | some Config =>
    if Config.bEnableLOD = false then 0
    else
      let AdjustedDistance := Distance / CurrentLODBias
      if AdjustedDistance ≤ Config.LOD0Distance then 0
      else if AdjustedDistance ≤ Config.LOD1Distance then 1
      else if AdjustedDistance ≤ Config.LOD2Distance then 2
      else if AdjustedDistance ≤ Config.CullingDistance then 3
      else -1

/-- The step function the specification describes for per-object LOD: the
adjusted distance tested against the four ordered thresholds, giving
levels 0-3 or the cull value beyond the culling distance. -/
def specLODStep (AdjustedDistance : ℚ) (Config : FBiomeLODConfig) : Int :=
  if AdjustedDistance ≤ Config.LOD0Distance then 0
  else if AdjustedDistance ≤ Config.LOD1Distance then 1
  else if AdjustedDistance ≤ Config.LOD2Distance then 2
  else if AdjustedDistance ≤ Config.CullingDistance then 3
  else -1

/-- Modelled from the spec: the consistency test in
`Tests/WorldGenerationTests.cpp` seeds the generator through
`SetGenerationSeed`, which exists in no shipped source file, and the
draws go through the engine routine `FMath::RandRange`; the spec only
requires an externally seeded deterministic pseudo-random source.  A
linear congruential generator stands in for that source. -/
def lcgNext (state : Nat) : Nat := (state * 1103515245 + 12345) % 4294967296

/-- Modelled from the spec: the raw draw taken from one state of the
modelled random source. -/
def lcgIndex (state : Nat) : Nat := state / 65536

/-- Modelled from the spec: the state of `UBiomeGenerator`
(`Systems/BiomeGenerator.h`) together with the seeded random source the
consistency test assumes. -/
structure UBiomeGeneratorState where
  bInitialized : Bool := false
  BiomeSeed : Int := 12345
  RngState : Nat := 0
deriving DecidableEq, Repr

/-- Modelled from the spec: `SetGenerationSeed` as the consistency test
calls it; it reseeds the random source from the given seed alone. -/
def SetGenerationSeed (g : UBiomeGeneratorState) (Seed : Int) :
    UBiomeGeneratorState :=
  { g with BiomeSeed := Seed, RngState := Seed.natAbs }

/-- `UBiomeGenerator::GenerateNextBiome` from `Systems/BiomeGenerator.cpp`
lines 44-54: one transition draw, advancing the modelled random source by
one step.  The left/right choice is only logged by the code and does not
influence the result. -/
def GenerateNextBiome (g : UBiomeGeneratorState) (CurrentBiome : EBiomeType)
    (_bChooseLeftPath : Bool) (BiomeHistory : List EBiomeType) :
    EBiomeType × UBiomeGeneratorState :=
  let s := lcgNext g.RngState
  (GetRandomValidTransitionIdx CurrentBiome BiomeHistory (lcgIndex s),
   { g with RngState := s })

/-- The loop body of `FWorldGenerationTestUtils::GenerateBiomeSequence`
(`Tests/WorldGenerationTestUtils.cpp` lines 58-87) with alternating
choices: repeated `GenerateNextBiome` calls threading a history ring
buffer capped at 10 entries. -/
def GenerateBiomeSequenceAux (g : UBiomeGeneratorState)
    (CurrentBiome : EBiomeType) (History : List EBiomeType) :
    Nat → Nat → List EBiomeType
  | 0, _ => []
  | n + 1, i =>
      let step := GenerateNextBiome g CurrentBiome (decide (i % 2 = 0)) History
      let History1 := History ++ [CurrentBiome]
      let History2 := if 10 < History1.length then History1.drop 1 else History1
      step.1 :: GenerateBiomeSequenceAux step.2 step.1 History2 n (i + 1)

/-- `FWorldGenerationTestUtils::GenerateBiomeSequence` with
`bAlternateChoices = true`, as the biome-generation consistency test runs
it. -/
def GenerateBiomeSequence (g : UBiomeGeneratorState) (StartBiome : EBiomeType)
    (NumTransitions : Nat) : List EBiomeType :=
  StartBiome :: GenerateBiomeSequenceAux g StartBiome [] NumTransitions 0

/-- A walk made of repeated `GetRandomValidTransition` calls threading the
callers' bounded history buffer, with one explicit random index per step;
quantifying over the index list covers every random source. -/
def biomeWalkAux (CurrentBiome : EBiomeType) (History : List EBiomeType) :
    List Nat → List EBiomeType
  | [] => []
  | k :: ks =>
      let next := GetRandomValidTransitionIdx CurrentBiome History k
      let History1 := History ++ [CurrentBiome]
      let History2 := if 10 < History1.length then History1.drop 1 else History1
      next :: biomeWalkAux next History2 ks

/-- The full generated biome sequence, starting biome included. -/
def biomeWalk (StartBiome : EBiomeType) (draws : List Nat) : List EBiomeType :=
  StartBiome :: biomeWalkAux StartBiome [] draws

/-- Transition probability exactly as claim C3 words it, for comparison
with the implementation: base probability times `penalty ^ runLength` when
the target equals the source biome, base times `0.1` on a disallowed
immediate return, base otherwise, always in the unit interval. -/
def claimedTransitionProbability (CurrentBiome TargetBiome : EBiomeType)
    (RecentBiomes : List EBiomeType) : ℚ :=
  let Rules := GetDefaultTransitionRules CurrentBiome
  let p :=
    if TargetBiome = CurrentBiome then
      Rules.BaseTransitionProbability *
        Rules.ConsecutiveBiomePenalty ^ consecutiveCount CurrentBiome RecentBiomes
    else if RecentBiomes.getLast? = some TargetBiome ∧
        Rules.bAllowImmediateReturn = false then
      Rules.BaseTransitionProbability * (1/10)
    else
      Rules.BaseTransitionProbability
  FMathClamp p 0 1

/-- The bounded-fields predicate of claim C1: each normalized field lies
in the unit interval and the path width in `[100, 1000]`. -/
def PathCharacteristicsBounded (C : FPathCharacteristics) : Prop :=
  (0 ≤ C.DifficultyLevel ∧ C.DifficultyLevel ≤ 1) ∧
  (0 ≤ C.SceneryRating ∧ C.SceneryRating ≤ 1) ∧
  (0 ≤ C.WildlifeEncounterRate ∧ C.WildlifeEncounterRate ≤ 1) ∧
  (0 ≤ C.DiscoveryProbability ∧ C.DiscoveryProbability ≤ 1) ∧
  (0 ≤ C.WeatherResistance ∧ C.WeatherResistance ≤ 1) ∧
  (0 ≤ C.Windiness ∧ C.Windiness ≤ 1) ∧
  (100 ≤ C.PathWidth ∧ C.PathWidth ≤ 1000)

/-- The memory bookkeeping invariant the streaming manager maintains:
section costs are never negative, and a section marked loaded carries the
positive estimate `LoadSection` stored for it. -/
def MemInv (Active : SectionMap) : Prop :=
  ∀ kv ∈ Active, 0 ≤ kv.2.MemoryUsageKB ∧
    (kv.2.bIsLoaded = true → 0 < kv.2.MemoryUsageKB)

instance (Active : SectionMap) : Decidable (MemInv Active) := by
  unfold MemInv; infer_instance

/-- Both clamp bounds hold whenever the interval is nonempty. -/
theorem FMathClamp_mem (x lo hi : ℚ) (h : lo ≤ hi) :
    lo ≤ FMathClamp x lo hi ∧ FMathClamp x lo hi ≤ hi := by
  unfold FMathClamp
  split_ifs with h1 h2
  · exact ⟨le_rfl, h⟩
  · exact ⟨le_of_not_lt h1, le_of_lt h2⟩
  · exact ⟨h, le_rfl⟩

/-- The numeric defaults of the transition-rule record are not overridden
by any biome case of the switch. -/
theorem getDefaultTransitionRules_defaults (b : EBiomeType) :
    (GetDefaultTransitionRules b).BaseTransitionProbability = 7/10 ∧
    (GetDefaultTransitionRules b).ConsecutiveBiomePenalty = 3/10 ∧
    (GetDefaultTransitionRules b).bAllowImmediateReturn = false ∧
    (GetDefaultTransitionRules b).MaxConsecutiveSameBiome = 3 := by
  cases b <;> exact ⟨rfl, rfl, rfl, rfl⟩

/-- No biome appears in its own valid-transition set, so self transitions
are never legal. -/
theorem canBiomesTransition_self (b : EBiomeType) :
    CanBiomesTransition b b = false := by
  cases b <;> decide

/-- A legal transition never targets the source biome. -/
theorem canBiomesTransition_ne (a b : EBiomeType)
    (h : CanBiomesTransition a b = true) : b ≠ a := by
  intro he
  subst he
  rw [canBiomesTransition_self] at h
  exact Bool.false_ne_true h

/-- Every real biome has a nonempty valid-transition set. -/
theorem validTransitions_ne_nil (B : EBiomeType) (h : B ≠ EBiomeType.None) :
    (GetDefaultTransitionRules B).ValidTransitions ≠ [] := by
  revert h; cases B <;> decide

/-- No valid-transition set contains the `None` sentinel. -/
theorem validTransitions_no_none (B x : EBiomeType)
    (hx : x ∈ (GetDefaultTransitionRules B).ValidTransitions) :
    x ≠ EBiomeType.None := by
  revert hx; cases B <;> cases x <;> decide

/-- Membership in the valid-transition set of a real biome is exactly
transition legality. -/
theorem mem_validTransitions_can (B x : EBiomeType) (hB : B ≠ EBiomeType.None)
    (hx : x ∈ (GetDefaultTransitionRules B).ValidTransitions) :
    CanBiomesTransition B x = true := by
  revert hB hx; cases B <;> cases x <;> decide

/-- The nonempty list the draw is taken from contains the result. -/
theorem selectOption_mem (l : List EBiomeType) (k : Nat) (hl : l ≠ []) :
    selectOption l k ∈ l := by
  cases l with
  | nil => exact absurd rfl hl
  | cons x xs => exact List.get_mem _ _ _

/-- The filtering step only ever removes candidates. -/
theorem filterTransitionOptions_subset (Rules : FBiomeTransitionRules)
    (CurrentBiome : EBiomeType) (RecentBiomes : List EBiomeType) :
    filterTransitionOptions Rules CurrentBiome RecentBiomes ⊆
      Rules.ValidTransitions := by
  simp only [filterTransitionOptions]
  repeat' split
  all_goals
    first
      | exact List.Subset.refl _
      | exact (List.filter_sublist _).subset
      | exact ((List.filter_sublist _).subset).trans ((List.filter_sublist _).subset)

/-- For a real current biome the drawn transition always lies in the
valid-transition set, whatever the history and the random draw. -/
theorem getRandomValidTransitionIdx_mem (CurrentBiome : EBiomeType)
    (h : CurrentBiome ≠ EBiomeType.None) (RecentBiomes : List EBiomeType)
    (k : Nat) :
    GetRandomValidTransitionIdx CurrentBiome RecentBiomes k ∈
      (GetDefaultTransitionRules CurrentBiome).ValidTransitions := by
  simp only [GetRandomValidTransitionIdx]
  by_cases he :
      filterTransitionOptions (GetDefaultTransitionRules CurrentBiome)
        CurrentBiome RecentBiomes = []
  · rw [if_pos he]
    exact selectOption_mem _ _ (validTransitions_ne_nil _ h)
  · rw [if_neg he]
    exact filterTransitionOptions_subset _ _ _ (selectOption_mem _ _ he)

/-- Every consecutive pair of a walk from a real biome is a legal
transition, for any history buffer contents. -/
theorem biomeWalkAux_chain (draws : List Nat) :
    ∀ (cur : EBiomeType) (hist : List EBiomeType), cur ≠ EBiomeType.None →
      List.Chain' (fun a b => CanBiomesTransition a b = true)
        (cur :: biomeWalkAux cur hist draws) := by
  induction draws with
  | nil => intro cur hist _; simp [biomeWalkAux]
  | cons k ks ih =>
      intro cur hist h
      simp only [biomeWalkAux]
      rw [List.chain'_cons]
      refine ⟨mem_validTransitions_can cur _ h
        (getRandomValidTransitionIdx_mem cur h hist k), ?_⟩
      exact ih _ _
        (validTransitions_no_none cur _ (getRandomValidTransitionIdx_mem cur h hist k))

/-- Claim C6: for every sequence produced by repeated
`GetRandomValidTransition` calls starting from any biome of the seven-biome
set, under every possible sequence of random draws, every consecutive pair
`(prev, next)` satisfies `CanBiomesTransition prev next`. -/
theorem biomeWalk_transitions_legal (StartBiome : EBiomeType)
    (h : StartBiome ≠ EBiomeType.None) (draws : List Nat) :
    List.Chain' (fun a b => CanBiomesTransition a b = true)
      (biomeWalk StartBiome draws) :=
  biomeWalkAux_chain draws StartBiome [] h

/-- Concrete instance of the transition-legality theorem on a three-step
walk from Forest. -/
theorem biomeWalk_transitions_legal_witness :
    List.Chain' (fun a b => CanBiomesTransition a b = true)
      (biomeWalk EBiomeType.Forest [0, 1, 2]) :=
  biomeWalk_transitions_legal EBiomeType.Forest (by decide) [0, 1, 2]

/-- Claim C7: every biome of the seven-biome set has a nonempty
valid-transition set that never contains the `None` sentinel, and
`Countryside` is a valid transition of every other biome (the universal
fallback). -/
theorem validTransitions_wellformed (B : EBiomeType)
    (h : B ≠ EBiomeType.None) :
    (GetDefaultTransitionRules B).ValidTransitions ≠ [] ∧
    EBiomeType.None ∉ (GetDefaultTransitionRules B).ValidTransitions ∧
    (B ≠ EBiomeType.Countryside →
      EBiomeType.Countryside ∈ (GetDefaultTransitionRules B).ValidTransitions) := by
  revert h; cases B <;> decide

/-- Concrete instance of the valid-transition well-formedness theorem at
Forest. -/
theorem validTransitions_wellformed_witness :
    (GetDefaultTransitionRules EBiomeType.Forest).ValidTransitions ≠ [] ∧
    EBiomeType.None ∉ (GetDefaultTransitionRules EBiomeType.Forest).ValidTransitions ∧
    (EBiomeType.Forest ≠ EBiomeType.Countryside →
      EBiomeType.Countryside ∈
        (GetDefaultTransitionRules EBiomeType.Forest).ValidTransitions) :=
  validTransitions_wellformed EBiomeType.Forest (by decide)

/-- A list with a last element is nonempty. -/
theorem getLast?_some_length_pos (l : List EBiomeType) (x : EBiomeType)
    (h : l.getLast? = some x) : 0 < l.length := by
  cases l with
  | nil => exact absurd h (by simp)
  | cons a t => simp

/-- Claim C3 fails as stated: at `from = to = Forest` with empty history
the claimed formula yields the base probability `0.7`, while the code
returns `0` because `CanBiomesTransition(Forest, Forest)` is false (no
valid-transition set contains its own biome, so the same-biome penalty
branch is unreachable). -/
theorem calculateTransitionProbability_claim_counterexample :
    CalculateTransitionProbability EBiomeType.Forest EBiomeType.Forest [] ≠
      claimedTransitionProbability EBiomeType.Forest EBiomeType.Forest [] := by
  norm_num [CalculateTransitionProbability, claimedTransitionProbability,
    CanBiomesTransition, GetDefaultTransitionRules, consecutiveCount, FMathClamp]
  decide

/-- Claim C3 (amended): the transition probability is always in the unit
interval, and it equals `0` whenever the transition is not legal (in
particular whenever `to = from` or either side is the `None` sentinel);
on a legal transition it equals `base * 0.1` when the target equals the
last history entry and immediate return is disallowed, and `base`
otherwise. -/
theorem calculateTransitionProbability_amended
    (CurrentBiome TargetBiome : EBiomeType) (RecentBiomes : List EBiomeType) :
    (0 ≤ CalculateTransitionProbability CurrentBiome TargetBiome RecentBiomes ∧
      CalculateTransitionProbability CurrentBiome TargetBiome RecentBiomes ≤ 1) ∧
    CalculateTransitionProbability CurrentBiome TargetBiome RecentBiomes =
      (if CanBiomesTransition CurrentBiome TargetBiome = false then 0
       else if RecentBiomes.getLast? = some TargetBiome ∧
           (GetDefaultTransitionRules CurrentBiome).bAllowImmediateReturn = false then
         (GetDefaultTransitionRules CurrentBiome).BaseTransitionProbability * (1/10)
       else (GetDefaultTransitionRules CurrentBiome).BaseTransitionProbability) := by
  obtain ⟨hbase, hpen, hallow, hmax⟩ := getDefaultTransitionRules_defaults CurrentBiome
  cases hcan : CanBiomesTransition CurrentBiome TargetBiome with
  | false =>
      simp only [CalculateTransitionProbability, hcan]
      norm_num
  | true =>
      have hne : TargetBiome ≠ CurrentBiome := canBiomesTransition_ne _ _ hcan
      simp only [CalculateTransitionProbability, hcan]
      rw [if_neg (by decide : ¬((true : Bool) = false))]
      rw [if_neg (by decide : ¬((true : Bool) = false))]
      rw [if_neg hne, hbase, hallow]
      by_cases him : RecentBiomes.getLast? = some TargetBiome
      · have hpos : 0 < RecentBiomes.length := getLast?_some_length_pos _ _ him
        have hc1 : 0 < RecentBiomes.length ∧
            RecentBiomes.getLast? = some TargetBiome ∧ (false : Bool) = false :=
          ⟨hpos, him, rfl⟩
        have hc2 : RecentBiomes.getLast? = some TargetBiome ∧ (false : Bool) = false :=
          ⟨him, rfl⟩
        rw [if_pos hc1, if_pos hc2]
        norm_num [FMathClamp]
      · rw [if_neg (fun hc => him hc.2.1), if_neg (fun hc => him hc.1)]
        norm_num [FMathClamp]

/-- For every personality preset and biome, the width after the biome
modifiers lies in `[225, 600]`: the concrete table values never reach the
clamp bounds, leaving room for the unclamped side factors. -/
theorem applyBiomeModifiers_width_range (Personality : EPathPersonality)
    (BiomeType : EBiomeType) :
    225 ≤ (ApplyBiomeModifiers (defaultOrEmpty Personality) BiomeType).PathWidth ∧
    (ApplyBiomeModifiers (defaultOrEmpty Personality) BiomeType).PathWidth ≤ 600 := by
  cases Personality <;> cases BiomeType <;>
    norm_num [ApplyBiomeModifiers, defaultOrEmpty, DefaultPathCharacteristics,
      FMathClamp]

/-- The generated width is the biome-modified width scaled by the side
factor; neither the jitter step nor the final clamp touches it. -/
theorem generatePathCharacteristics_width (Personality : EPathPersonality)
    (BiomeType : EBiomeType) (bIsLeftPath : Bool) (RandomFactor : ℚ) :
    (GeneratePathCharacteristics Personality BiomeType bIsLeftPath RandomFactor).PathWidth =
      (ApplyBiomeModifiers (defaultOrEmpty Personality) BiomeType).PathWidth *
        (if bIsLeftPath then (9 : ℚ)/10 else 11/10) := by
  cases bIsLeftPath <;> simp [GeneratePathCharacteristics]

/-- Claim C1: for every (personality, biome, side) triple and every jitter
value `FRandRange(0.9, 1.1)` can produce, the record returned by
`GeneratePathCharacteristics` has every normalized field in `[0, 1]` and
the path width in `[100, 1000]`. -/
theorem generatePathCharacteristics_bounded (Personality : EPathPersonality)
    (BiomeType : EBiomeType) (bIsLeftPath : Bool) (RandomFactor : ℚ)
    (hr : 9/10 ≤ RandomFactor ∧ RandomFactor ≤ 11/10) :
    PathCharacteristicsBounded
      (GeneratePathCharacteristics Personality BiomeType bIsLeftPath RandomFactor) := by
  unfold PathCharacteristicsBounded
  refine ⟨?_, ?_, ?_, ?_, ?_, ?_, ?_⟩
  · simp only [GeneratePathCharacteristics]
    exact FMathClamp_mem _ _ _ (by norm_num)
  · simp only [GeneratePathCharacteristics]
    exact FMathClamp_mem _ _ _ (by norm_num)
  · simp only [GeneratePathCharacteristics]
    exact FMathClamp_mem _ _ _ (by norm_num)
  · simp only [GeneratePathCharacteristics]
    exact FMathClamp_mem _ _ _ (by norm_num)
  · simp only [GeneratePathCharacteristics]
    exact FMathClamp_mem _ _ _ (by norm_num)
  · cases bIsLeftPath <;>
      simp only [GeneratePathCharacteristics, ApplyBiomeModifiers, Bool.false_eq_true,
        if_false, if_true, reduceIte] <;>
      exact FMathClamp_mem _ _ _ (by norm_num)
  · obtain ⟨h1, h2⟩ := applyBiomeModifiers_width_range Personality BiomeType
    rw [generatePathCharacteristics_width]
    cases bIsLeftPath <;> simp only [Bool.false_eq_true, if_false, if_true, ite_true,
      ite_false] <;> constructor <;> linarith

/-- Concrete instance of the bounded-characteristics theorem at
(Wild, Forest, left) with unit jitter. -/
theorem generatePathCharacteristics_bounded_witness :
    PathCharacteristicsBounded
      (GeneratePathCharacteristics EPathPersonality.Wild EBiomeType.Forest true 1) :=
  generatePathCharacteristics_bounded EPathPersonality.Wild EBiomeType.Forest true 1
    (by norm_num)

/-- Mapping pairwise with a first-component-preserving function keeps the
key list. -/
theorem map_fst_of_fst_preserved (W : WeightMap)
    (g : EPathPersonality × ℚ → EPathPersonality × ℚ)
    (hg : ∀ kv, (g kv).1 = kv.1) : (W.map g).map Prod.fst = W.map Prod.fst := by
  induction W with
  | nil => rfl
  | cons kv t ih => simp [hg, ih]

/-- The player-preference boost multiplies existing entries only; it never
adds or removes keys. -/
theorem map_fst_applyPreferenceBoost (prefs : WeightMap) :
    ∀ W : WeightMap, (applyPreferenceBoost W prefs).map Prod.fst = W.map Prod.fst := by
  induction prefs with
  | nil => intro W; rfl
  | cons p ps ih =>
      intro W
      simp only [applyPreferenceBoost, List.foldl_cons] at ih ⊢
      rw [ih]
      exact map_fst_of_fst_preserved W _
        (fun kv => by by_cases h : kv.1 = p.1 <;> simp [h])

/-- The side-bias pass never adds or removes keys. -/
theorem map_fst_applySideBias (bIsLeftPath : Bool) (BiasMultiplier : ℚ)
    (W : WeightMap) :
    (applySideBias bIsLeftPath BiasMultiplier W).map Prod.fst = W.map Prod.fst :=
  map_fst_of_fst_preserved W _ (fun _ => rfl)

/-- After `Initialize`, the Mountains weight map has exactly the keys
Challenge, Scenic and Wild, whatever the player history contains. -/
theorem calculatePersonalityWeights_mountains_keys
    (PlayerHistory : FPlayerChoiceHistory) :
    (CalculatePersonalityWeights EBiomeType.Mountains PlayerHistory).map Prod.fst =
      [EPathPersonality.Challenge, EPathPersonality.Scenic, EPathPersonality.Wild] := by
  simp only [CalculatePersonalityWeights, BiomeGenerationRules]
  rw [map_fst_applyPreferenceBoost]
  rfl

/-- The unchecked multiply-through-`operator[]` succeeds exactly on a
present key. -/
theorem tmapIndexMul_present (W : WeightMap) (k : EPathPersonality) (m : ℚ)
    (h : k ∈ W.map Prod.fst) :
    TMapIndexMul W k m =
      some (W.map (fun kv => if kv.1 = k then (kv.1, kv.2 * m) else kv)) := by
  simp [TMapIndexMul, h]

/-- The unchecked multiply-through-`operator[]` asserts on a missing
key. -/
theorem tmapIndexMul_missing (W : WeightMap) (k : EPathPersonality) (m : ℚ)
    (h : k ∉ W.map Prod.fst) : TMapIndexMul W k m = Option.none := by
  simp [TMapIndexMul, h]

/-- The biome-context pass for Mountains always dies on the `Mystery`
lookup when the weight map carries exactly the Mountains keys. -/
theorem applyBiomeTransitionContext_mountains (W : WeightMap)
    (h : W.map Prod.fst =
      [EPathPersonality.Challenge, EPathPersonality.Scenic, EPathPersonality.Wild]) :
    ApplyBiomeTransitionContext EBiomeType.Mountains W = Option.none := by
  have hWild : EPathPersonality.Wild ∈ W.map Prod.fst := by rw [h]; simp
  simp only [ApplyBiomeTransitionContext]
  rw [tmapIndexMul_present W _ _ hWild, Option.some_bind]
  apply tmapIndexMul_missing
  rw [map_fst_of_fst_preserved W _
    (fun kv => by by_cases hk : kv.1 = EPathPersonality.Wild <;> simp [hk]), h]
  decide

/-- Claim C2 is violated by the code: after `Initialize`, every call of
`DeterminePathPersonality(from, Mountains, side, history)` reaches the
biome-context pass, which reads `PersonalityWeights[Mystery]` through the
unchecked `TMap::operator[]` even though the Mountains weight map has
exactly the keys Challenge, Scenic and Wild, so the `check` assertion in
`FindChecked` fires (modelled as `none`) for every from-biome, side,
history and random draw, crashing the host process. -/
theorem determinePathPersonality_mountains_crashes (FromBiome : EBiomeType)
    (bIsLeftPath : Bool) (PlayerHistory : FPlayerChoiceHistory)
    (RandomValue : ℚ) :
    DeterminePathPersonality FromBiome EBiomeType.Mountains bIsLeftPath
      PlayerHistory RandomValue = Option.none := by
  simp only [DeterminePathPersonality, BiomeGenerationRules]
  rw [applyBiomeTransitionContext_mountains _
    (by rw [map_fst_applySideBias, calculatePersonalityWeights_mountains_keys])]
  rfl

/-- A generated sequence depends only on the random-source state, not on
any other generator state. -/
theorem generateBiomeSequenceAux_rng (n : Nat) :
    ∀ (i : Nat) (cur : EBiomeType) (hist : List EBiomeType)
      (a b : UBiomeGeneratorState), a.RngState = b.RngState →
      GenerateBiomeSequenceAux a cur hist n i =
        GenerateBiomeSequenceAux b cur hist n i := by
  induction n with
  | zero => intros; rfl
  | succ m ih =>
      intro i cur hist a b h
      simp only [GenerateBiomeSequenceAux, GenerateNextBiome, h]
      exact congrArg _ (ih (i + 1) _ _ _ _ rfl)

/-- Claim C8: reseeding with the same seed erases all prior generator
state, so two runs with identical seed and identical history produce
identical output; and the consistency-test seeds 12345 and 54321 give
15-step alternating-choice sequences from Forest that differ in at least
3 positions. -/
theorem pickNextBiome_deterministic_and_seed_sensitive :
    (∀ (g1 g2 : UBiomeGeneratorState) (Seed : Int) (StartBiome : EBiomeType)
        (n : Nat),
        GenerateBiomeSequence (SetGenerationSeed g1 Seed) StartBiome n =
          GenerateBiomeSequence (SetGenerationSeed g2 Seed) StartBiome n) ∧
    3 ≤ ((GenerateBiomeSequence (SetGenerationSeed {} 12345) EBiomeType.Forest 15).zip
          (GenerateBiomeSequence (SetGenerationSeed {} 54321) EBiomeType.Forest 15)).countP
          (fun p => decide (p.1 ≠ p.2)) := by
  constructor
  · intro g1 g2 Seed StartBiome n
    simp only [GenerateBiomeSequence]
    rw [generateBiomeSequenceAux_rng n 0 StartBiome []
      (SetGenerationSeed g1 Seed) (SetGenerationSeed g2 Seed) rfl]
  · decide

/-- Flooring the scaled center of a grid cell recovers the coordinate. -/
theorem floor_center_div (S : ℚ) (hS : 0 < S) (z : Int) :
    ⌊((z : ℚ) * S + S * (1/2)) / S⌋ = z := by
  have hne : S ≠ 0 := ne_of_gt hS
  have hdiv : ((z : ℚ) * S + S * (1/2)) / S = (z : ℚ) + 1/2 := by
    field_simp
    ring
  rw [hdiv, Int.floor_int_add]
  have : ⌊(1/2 : ℚ)⌋ = 0 := by
    rw [Int.floor_eq_zero_iff]
    constructor <;> norm_num
  rw [this, add_zero]

/-- Claim C10: for every positive section size, mapping a section center
back through floor division recovers exactly the grid coordinate. -/
theorem sectionCoordinates_roundTrip (cfg : StreamingConfig)
    (hS : 0 < cfg.SectionSizeCm) (c : FIntVector) :
    WorldToSectionCoordinates cfg (SectionCoordinatesToWorld cfg c) = c := by
  cases c with
  | mk X Y Z =>
      simp only [WorldToSectionCoordinates, SectionCoordinatesToWorld,
        FIntVector.mk.injEq]
      exact ⟨floor_center_div _ hS X, floor_center_div _ hS Y,
        floor_center_div _ hS Z⟩

/-- Concrete instance of the grid round-trip at coordinate (3, -5, 7)
with the default section size. -/
theorem sectionCoordinates_roundTrip_witness :
    WorldToSectionCoordinates {} (SectionCoordinatesToWorld {} ⟨3, -5, 7⟩) =
      (⟨3, -5, 7⟩ : FIntVector) :=
  sectionCoordinates_roundTrip {} (by norm_num) ⟨3, -5, 7⟩

/-- Every stored LOD configuration is enabled and has strictly increasing
thresholds. -/
theorem biomeLODConfigs_ordered (b : EBiomeType) (C : FBiomeLODConfig)
    (hC : BiomeLODConfigs b = some C) :
    C.bEnableLOD = true ∧ C.LOD0Distance < C.LOD1Distance ∧
    C.LOD1Distance < C.LOD2Distance ∧ C.LOD2Distance < C.CullingDistance := by
  cases b <;> simp only [BiomeLODConfigs] at hC
  case None => exact absurd hC (by simp)
  all_goals
    injection hC with hC
  all_goals
    subst hC
  all_goals
    exact ⟨rfl, by norm_num, by norm_num, by norm_num⟩

/-- When the biome has an enabled configuration, the computed LOD level is
exactly the specification step function of the adjusted distance. -/
theorem calculateLODLevel_eq_spec (b : EBiomeType) (C : FBiomeLODConfig)
    (hC : BiomeLODConfigs b = some C) (hen : C.bEnableLOD = true)
    (CurrentLODBias Distance : ℚ) :
    CalculateLODLevel CurrentLODBias Distance b =
      specLODStep (Distance / CurrentLODBias) C := by
  simp [CalculateLODLevel, hC, hen, specLODStep]

/-- The interval characterization of the step function under ordered
thresholds. -/
theorem specLODStep_iffs (adj : ℚ) (C : FBiomeLODConfig)
    (h01 : C.LOD0Distance < C.LOD1Distance)
    (h12 : C.LOD1Distance < C.LOD2Distance)
    (h23 : C.LOD2Distance < C.CullingDistance) :
    (specLODStep adj C = 0 ↔ adj ≤ C.LOD0Distance) ∧
    (specLODStep adj C = 1 ↔ C.LOD0Distance < adj ∧ adj ≤ C.LOD1Distance) ∧
    (specLODStep adj C = 2 ↔ C.LOD1Distance < adj ∧ adj ≤ C.LOD2Distance) ∧
    (specLODStep adj C = 3 ↔ C.LOD2Distance < adj ∧ adj ≤ C.CullingDistance) ∧
    (specLODStep adj C = -1 ↔ C.CullingDistance < adj) := by
  unfold specLODStep
  split_ifs with h1 h2 h3 h4 <;>
    refine ⟨?_, ?_, ?_, ?_, ?_⟩ <;>
    constructor <;>
    intro hx <;>
    (try obtain ⟨hx1, hx2⟩ := hx) <;>
    first
      | rfl
      | (norm_num at hx; done)
      | linarith
      | (constructor <;> linarith)

/-- Claim C9: for every nonnegative distance, positive LOD bias, and biome
holding an LOD configuration, the thresholds are strictly increasing and
`CalculateLODLevel` is the step function of `distance / bias` against
them: level 0 up to `LOD0Distance`, 1 up to `LOD1Distance`, 2 up to
`LOD2Distance`, 3 up to `CullingDistance`, and the cull value beyond. -/
theorem calculateLODLevel_step (BiomeType : EBiomeType)
    (Distance CurrentLODBias : ℚ) (hd : 0 ≤ Distance)
    (hbias : 0 < CurrentLODBias) (C : FBiomeLODConfig)
    (hC : BiomeLODConfigs BiomeType = some C) :
    (C.LOD0Distance < C.LOD1Distance ∧ C.LOD1Distance < C.LOD2Distance ∧
      C.LOD2Distance < C.CullingDistance) ∧
    CalculateLODLevel CurrentLODBias Distance BiomeType =
      specLODStep (Distance / CurrentLODBias) C ∧
    (CalculateLODLevel CurrentLODBias Distance BiomeType = 0 ↔
      Distance / CurrentLODBias ≤ C.LOD0Distance) ∧
    (CalculateLODLevel CurrentLODBias Distance BiomeType = 1 ↔
      C.LOD0Distance < Distance / CurrentLODBias ∧
        Distance / CurrentLODBias ≤ C.LOD1Distance) ∧
    (CalculateLODLevel CurrentLODBias Distance BiomeType = 2 ↔
      C.LOD1Distance < Distance / CurrentLODBias ∧
        Distance / CurrentLODBias ≤ C.LOD2Distance) ∧
    (CalculateLODLevel CurrentLODBias Distance BiomeType = 3 ↔
      C.LOD2Distance < Distance / CurrentLODBias ∧
        Distance / CurrentLODBias ≤ C.CullingDistance) ∧
    (CalculateLODLevel CurrentLODBias Distance BiomeType = -1 ↔
      C.CullingDistance < Distance / CurrentLODBias) := by
  obtain ⟨hen, h01, h12, h23⟩ := biomeLODConfigs_ordered BiomeType C hC
  have heq := calculateLODLevel_eq_spec BiomeType C hC hen CurrentLODBias Distance
  obtain ⟨i0, i1, i2, i3, i4⟩ :=
    specLODStep_iffs (Distance / CurrentLODBias) C h01 h12 h23
  rw [heq]
  exact ⟨⟨h01, h12, h23⟩, rfl, i0, i1, i2, i3, i4⟩

/-- Concrete instance of the LOD step theorem: in Forest with unit bias, a
distance of 900 lands strictly between the first two thresholds. -/
theorem calculateLODLevel_step_witness :
    CalculateLODLevel 1 900 EBiomeType.Forest = 1 :=
  ((calculateLODLevel_step EBiomeType.Forest 900 1 (by norm_num) (by norm_num)
    ⟨800, 2500, 5000, 8000, true, 8/10⟩ rfl).2.2.2.1).mpr (by norm_num)

/-- A successful `mapFind` names an actual entry of the map. -/
theorem mapFind_mem (c : FIntVector) :
    ∀ (A : SectionMap) (sec : FWorldSection),
      mapFind c A = some sec → (c, sec) ∈ A := by
  intro A
  induction A with
  | nil => intro sec h; exact absurd h (by simp [mapFind])
  | cons kv t ih =>
      intro sec h
      cases kv with
      | mk k v =>
          rw [mapFind] at h
          by_cases hk : k = c
          · rw [if_pos hk] at h
            injection h with h2
            subst hk
            subst h2
            exact List.mem_cons_self _ _
          · rw [if_neg hk] at h
            exact List.mem_cons_of_mem _ (ih _ h)

/-- Unloading a section never adds entries to the map. -/
theorem unloadSection_sublist (c : FIntVector) (A : SectionMap) :
    (UnloadSection c A).Sublist A := by
  unfold UnloadSection
  split
  · exact List.Sublist.refl _
  · split
    · exact List.Sublist.refl _
    · exact List.filter_sublist _

/-- `UnloadSection` either leaves the map unchanged or filters out a
loaded section it found. -/
theorem unloadSection_cases (c : FIntVector) (A : SectionMap) :
    UnloadSection c A = A ∨
    (∃ sec, mapFind c A = some sec ∧ sec.bIsLoaded = true ∧
      UnloadSection c A = A.filter (fun kv => decide (kv.1 ≠ c))) := by
  unfold UnloadSection
  split
  · exact Or.inl rfl
  next sec hfind =>
    split
    next hload => exact Or.inl rfl
    next hload =>
      exact Or.inr ⟨sec, hfind, by revert hload; cases sec.bIsLoaded <;> simp, rfl⟩

/-- Filtering a map with nonnegative section costs never raises the
total. -/
theorem totalMemory_filter_le (A : SectionMap)
    (P : FIntVector × FWorldSection → Bool)
    (h : ∀ kv ∈ A, 0 ≤ kv.2.MemoryUsageKB) :
    GetTotalMemoryUsageKB (A.filter P) ≤ GetTotalMemoryUsageKB A := by
  induction A with
  | nil => exact le_rfl
  | cons kv t ih =>
      have h0 : 0 ≤ kv.2.MemoryUsageKB := h kv (List.mem_cons_self _ _)
      have iht := ih (fun x hx => h x (List.mem_cons_of_mem _ hx))
      cases hP : P kv <;>
        simp only [GetTotalMemoryUsageKB, List.filter_cons, hP, List.map_cons,
          List.sum_cons, if_true, if_false, Bool.false_eq_true, ite_true, ite_false] <;>
        simp only [GetTotalMemoryUsageKB] at iht <;>
        linarith

/-- Filtering out an entry with strictly positive cost strictly lowers
the total when all costs are nonnegative. -/
theorem totalMemory_filter_lt (A : SectionMap)
    (P : FIntVector × FWorldSection → Bool)
    (h : ∀ kv ∈ A, 0 ≤ kv.2.MemoryUsageKB) (a : FIntVector × FWorldSection)
    (ha : a ∈ A) (hPa : P a = false) (hpos : 0 < a.2.MemoryUsageKB) :
    GetTotalMemoryUsageKB (A.filter P) < GetTotalMemoryUsageKB A := by
  induction A with
  | nil => exact absurd ha (by simp)
  | cons kv t ih =>
      have h0 : 0 ≤ kv.2.MemoryUsageKB := h kv (List.mem_cons_self _ _)
      have ht : ∀ x ∈ t, 0 ≤ x.2.MemoryUsageKB :=
        fun x hx => h x (List.mem_cons_of_mem _ hx)
      rcases List.mem_cons.mp ha with heq | hmem
      · subst heq
        have hle := totalMemory_filter_le t P ht
        simp only [GetTotalMemoryUsageKB] at hle
        simp only [GetTotalMemoryUsageKB, List.filter_cons, hPa, List.map_cons,
          List.sum_cons, Bool.false_eq_true, ite_false]
        linarith
      · have iht := ih ht hmem
        simp only [GetTotalMemoryUsageKB] at iht
        cases hP : P kv <;>
          simp only [GetTotalMemoryUsageKB, List.filter_cons, hP, List.map_cons,
            List.sum_cons, Bool.false_eq_true, ite_true, ite_false] <;>
          linarith

/-- One unload step: the invariant survives, the count and the total never
rise, and a real removal strictly lowers the total. -/
theorem unloadSection_step (c : FIntVector) (A : SectionMap) (h : MemInv A) :
    MemInv (UnloadSection c A) ∧
    (UnloadSection c A).length ≤ A.length ∧
    GetTotalMemoryUsageKB (UnloadSection c A) ≤ GetTotalMemoryUsageKB A ∧
    ((UnloadSection c A).length < A.length →
      GetTotalMemoryUsageKB (UnloadSection c A) < GetTotalMemoryUsageKB A) := by
  rcases unloadSection_cases c A with heq | ⟨sec, hfind, hload, heq⟩
  · rw [heq]
    exact ⟨h, le_rfl, le_rfl, fun hl => absurd hl (lt_irrefl _)⟩
  · rw [heq]
    have hmem : (c, sec) ∈ A := mapFind_mem c A sec hfind
    have hpos : 0 < sec.MemoryUsageKB := (h _ hmem).2 hload
    refine ⟨fun kv hkv => h kv ((List.filter_sublist _).subset hkv),
      (List.filter_sublist _).length_le,
      totalMemory_filter_le _ _ (fun kv hkv => (h kv hkv).1),
      fun _ => totalMemory_filter_lt _ _ (fun kv hkv => (h kv hkv).1)
        (c, sec) hmem (by simp) hpos⟩

/-- Folding unload steps over any key list: the invariant survives, the
count and the total never rise, and any overall shrink of the map comes
with a strict drop of the total. -/
theorem unload_fold (keys : List FIntVector) :
    ∀ A : SectionMap, MemInv A →
      MemInv (keys.foldl (fun acc c => UnloadSection c acc) A) ∧
      (keys.foldl (fun acc c => UnloadSection c acc) A).length ≤ A.length ∧
      GetTotalMemoryUsageKB (keys.foldl (fun acc c => UnloadSection c acc) A) ≤
        GetTotalMemoryUsageKB A ∧
      ((keys.foldl (fun acc c => UnloadSection c acc) A).length < A.length →
        GetTotalMemoryUsageKB (keys.foldl (fun acc c => UnloadSection c acc) A) <
          GetTotalMemoryUsageKB A) := by
  induction keys with
  | nil =>
      intro A h
      exact ⟨h, le_rfl, le_rfl, fun hl => absurd hl (lt_irrefl _)⟩
  | cons c cs ih =>
      intro A h
      obtain ⟨h1, hlen1, hle1, hlt1⟩ := unloadSection_step c A h
      obtain ⟨h2, hlen2, hle2, hlt2⟩ := ih (UnloadSection c A) h1
      simp only [List.foldl_cons]
      refine ⟨h2, hlen2.trans hlen1, hle2.trans hle1, ?_⟩
      intro hl
      by_cases hc :
          (cs.foldl (fun acc c => UnloadSection c acc) (UnloadSection c A)).length <
            (UnloadSection c A).length
      · exact lt_of_lt_of_le (hlt2 hc) hle1
      · have hstep : (UnloadSection c A).length < A.length := by omega
        exact lt_of_le_of_lt hle2 (hlt1 hstep)

/-- Claim C5: for every active-section map satisfying the code's memory
bookkeeping invariant and every player position, a forced
`CleanupDistantSections` call never increases the total memory usage, and
if at least one section was removed from the map it strictly decreases
it. -/
theorem cleanupDistantSections_memory_monotone (cfg : StreamingConfig)
    (Active : SectionMap) (PlayerLocation : Vec3) (CurrentTime : ℚ)
    (h : MemInv Active) :
    GetTotalMemoryUsageKB
        (CleanupDistantSections cfg Active PlayerLocation true CurrentTime) ≤
      GetTotalMemoryUsageKB Active ∧
    ((CleanupDistantSections cfg Active PlayerLocation true CurrentTime).length <
        Active.length →
      GetTotalMemoryUsageKB
          (CleanupDistantSections cfg Active PlayerLocation true CurrentTime) <
        GetTotalMemoryUsageKB Active) := by
  obtain ⟨_, _, hle, hlt⟩ :=
    unload_fold
      ((Active.filter
        (fun kv => shouldUnloadSection cfg PlayerLocation true CurrentTime kv.2)).map
        Prod.fst) Active h
  exact ⟨hle, hlt⟩

/-- Concrete instance of the cleanup-monotonicity theorem: a single far
loaded Forest section at the default configuration. -/
theorem cleanupDistantSections_memory_monotone_witness :
    GetTotalMemoryUsageKB
        (CleanupDistantSections {}
          [(⟨3, 0, 0⟩,
            { SectionCoordinates := ⟨3, 0, 0⟩, BiomeType := EBiomeType.Forest,
              WorldPosition := ⟨700000, 100000, 100000⟩, bIsLoaded := true,
              bIsVisible := false, LastAccessTime := 0, MemoryUsageKB := 15360,
              bHasIntersection := false })]
          ⟨0, 0, 0⟩ true 0) ≤
      GetTotalMemoryUsageKB
        [(⟨3, 0, 0⟩,
          { SectionCoordinates := ⟨3, 0, 0⟩, BiomeType := EBiomeType.Forest,
            WorldPosition := ⟨700000, 100000, 100000⟩, bIsLoaded := true,
            bIsVisible := false, LastAccessTime := 0, MemoryUsageKB := 15360,
            bHasIntersection := false })] :=
  (cleanupDistantSections_memory_monotone {}
    [(⟨3, 0, 0⟩,
      { SectionCoordinates := ⟨3, 0, 0⟩, BiomeType := EBiomeType.Forest,
        WorldPosition := ⟨700000, 100000, 100000⟩, bIsLoaded := true,
        bIsVisible := false, LastAccessTime := 0, MemoryUsageKB := 15360,
        bHasIntersection := false })]
    ⟨0, 0, 0⟩ 0 (by decide)).1

/-- Folding unload steps never adds entries. -/
theorem unload_fold_sublist (keys : List FIntVector) :
    ∀ A : SectionMap,
      (keys.foldl (fun acc c => UnloadSection c acc) A).Sublist A := by
  induction keys with
  | nil => intro A; exact List.Sublist.refl _
  | cons c cs ih =>
      intro A
      simp only [List.foldl_cons]
      exact (ih _).trans (unloadSection_sublist c A)

/-- Distant-section cleanup never adds entries. -/
theorem cleanupDistantSections_sublist (cfg : StreamingConfig)
    (Active : SectionMap) (PlayerLocation : Vec3) (bForceCleanup : Bool)
    (CurrentTime : ℚ) :
    (CleanupDistantSections cfg Active PlayerLocation bForceCleanup
      CurrentTime).Sublist Active :=
  unload_fold_sublist _ Active

/-- The capacity step never adds entries. -/
theorem afterForcedCleanup_sublist (cfg : StreamingConfig)
    (Active : SectionMap) (PlayerLocation : Vec3) (CurrentTime : ℚ) :
    (afterForcedCleanup cfg Active PlayerLocation CurrentTime).Sublist Active := by
  unfold afterForcedCleanup
  split
  · exact cleanupDistantSections_sublist _ _ _ _ _
  · exact List.Sublist.refl _

/-- `mapUpdate` keeps the key list. -/
theorem map_fst_mapUpdate (c : FIntVector) (v : FWorldSection)
    (A : SectionMap) : (mapUpdate c v A).map Prod.fst = A.map Prod.fst := by
  induction A with
  | nil => rfl
  | cons kv t ih =>
      simp only [mapUpdate, List.map_cons] at ih ⊢
      by_cases h : kv.1 = c
      · simp [h, ih]
      · simp [h, ih]

/-- `LoadSection` mutates one entry in place; the key list survives. -/
theorem map_fst_loadSection (A : SectionMap) (c : FIntVector)
    (o : LoadOracle) : (LoadSection A c o).map Prod.fst = A.map Prod.fst := by
  unfold LoadSection
  split
  · rfl
  · split
    · rfl
    · split
      · rfl
      · exact map_fst_mapUpdate _ _ _

/-- Claim C4: the admission behavior of `StreamInBiomeSection` at the
target coordinate `toSectionCoords(playerPos + direction * S)`.  When a
section already exists there, only its last-access time is refreshed and
the call succeeds without creating a section; when the total memory usage
is not below the budget, the call fails, broadcasts the budget-exceeded
signal, and changes nothing; when the count is still at the cap even
after the forced eviction of sections farther than `1.5 * S`, the call
fails having added no section; otherwise exactly one new section at the
target coordinate is appended and the call succeeds. -/
theorem streamInBiomeSection_spec (cfg : StreamingConfig)
    (Active : SectionMap) (PlayerLocation : Vec3) (BiomeType : EBiomeType)
    (Direction : Vec3) (CurrentTime : ℚ) (o : LoadOracle) :
    (∀ sec,
      mapFind (targetSectionCoords cfg PlayerLocation Direction) Active = some sec →
      StreamInBiomeSection cfg Active PlayerLocation BiomeType Direction
          CurrentTime o =
        (mapUpdate (targetSectionCoords cfg PlayerLocation Direction)
          { sec with LastAccessTime := CurrentTime } Active, true, false) ∧
      (StreamInBiomeSection cfg Active PlayerLocation BiomeType Direction
        CurrentTime o).1.map Prod.fst = Active.map Prod.fst) ∧
    (mapFind (targetSectionCoords cfg PlayerLocation Direction) Active =
        Option.none →
      (¬(GetTotalMemoryUsageKB Active < cfg.MaxMemoryBudgetKB) →
        StreamInBiomeSection cfg Active PlayerLocation BiomeType Direction
          CurrentTime o = (Active, false, true)) ∧
      (GetTotalMemoryUsageKB Active < cfg.MaxMemoryBudgetKB →
        (cfg.MaxActiveSections ≤
            ((afterForcedCleanup cfg Active PlayerLocation CurrentTime).length : Int) →
          StreamInBiomeSection cfg Active PlayerLocation BiomeType Direction
              CurrentTime o =
            (afterForcedCleanup cfg Active PlayerLocation CurrentTime, false, false) ∧
          (StreamInBiomeSection cfg Active PlayerLocation BiomeType Direction
            CurrentTime o).1.map Prod.fst ⊆ Active.map Prod.fst) ∧
        (((afterForcedCleanup cfg Active PlayerLocation CurrentTime).length : Int) <
            cfg.MaxActiveSections →
          (StreamInBiomeSection cfg Active PlayerLocation BiomeType Direction
            CurrentTime o).2.1 = true ∧
          (StreamInBiomeSection cfg Active PlayerLocation BiomeType Direction
            CurrentTime o).2.2 = false ∧
          (StreamInBiomeSection cfg Active PlayerLocation BiomeType Direction
            CurrentTime o).1.map Prod.fst =
            (afterForcedCleanup cfg Active PlayerLocation CurrentTime).map
              Prod.fst ++
              [targetSectionCoords cfg PlayerLocation Direction]))) := by
  constructor
  · intro sec hfind
    have e : StreamInBiomeSection cfg Active PlayerLocation BiomeType Direction
        CurrentTime o =
        (mapUpdate (targetSectionCoords cfg PlayerLocation Direction)
          { sec with LastAccessTime := CurrentTime } Active, true, false) := by
      simp only [StreamInBiomeSection, hfind]
    rw [e]
    exact ⟨rfl, map_fst_mapUpdate _ _ _⟩
  · intro hfind
    constructor
    · intro hb
      have hW : IsWithinMemoryBudget cfg Active = false := by
        simp [IsWithinMemoryBudget, hb]
      simp [StreamInBiomeSection, hfind, hW]
    · intro hb
      have hW : IsWithinMemoryBudget cfg Active = true := by
        simp [IsWithinMemoryBudget, hb]
      constructor
      · intro hcap
        have e : StreamInBiomeSection cfg Active PlayerLocation BiomeType
            Direction CurrentTime o =
            (afterForcedCleanup cfg Active PlayerLocation CurrentTime,
             false, false) := by
          simp only [StreamInBiomeSection, hfind, hW]
          rw [if_neg (by decide : ¬((true : Bool) = false))]
          rw [if_pos hcap]
        rw [e]
        exact ⟨rfl,
          ((afterForcedCleanup_sublist cfg Active PlayerLocation
            CurrentTime).map Prod.fst).subset⟩
      · intro hncap
        have e : StreamInBiomeSection cfg Active PlayerLocation BiomeType
            Direction CurrentTime o =
            (LoadSection
              (afterForcedCleanup cfg Active PlayerLocation CurrentTime ++
                [(targetSectionCoords cfg PlayerLocation Direction,
                  CreateWorldSection cfg
                    (targetSectionCoords cfg PlayerLocation Direction)
                    BiomeType CurrentTime)])
              (targetSectionCoords cfg PlayerLocation Direction) o,
             true, false) := by
          simp only [StreamInBiomeSection, hfind, hW]
          rw [if_neg (by decide : ¬((true : Bool) = false))]
          rw [if_neg (not_le.mpr hncap)]
        rw [e]
        refine ⟨rfl, rfl, ?_⟩
        rw [map_fst_loadSection, List.map_append]
        rfl

/-- Concrete instance of the admission theorem: streaming into an empty
map succeeds. -/
theorem streamInBiomeSection_spec_witness :
    (StreamInBiomeSection {} [] ⟨0, 0, 0⟩ EBiomeType.Forest ⟨1, 0, 0⟩ 0 {}).2.1 =
      true :=
  (((streamInBiomeSection_spec {} [] ⟨0, 0, 0⟩ EBiomeType.Forest ⟨1, 0, 0⟩ 0
    {}).2 rfl).2 (by decide)).2 (by decide) |>.1

/-- The estimated section cost is always strictly positive. -/
theorem calculateSectionMemoryUsage_pos (sec : FWorldSection) :
    0 < CalculateSectionMemoryUsage sec := by
  cases sec with
  | mk c b w l v t m i =>
      cases b <;> cases i <;> norm_num [CalculateSectionMemoryUsage]

/-- `LoadSection` keeps the memory bookkeeping invariant: the entry it
marks loaded receives the positive estimated cost. -/
theorem loadSection_memInv (A : SectionMap) (c : FIntVector) (o : LoadOracle)
    (h : MemInv A) : MemInv (LoadSection A c o) := by
  unfold LoadSection
  split
  · exact h
  · split
    · exact h
    · split
      · exact h
      · intro kv hkv
        unfold mapUpdate at hkv
        rcases List.mem_map.mp hkv with ⟨kv0, hkv0, heq⟩
        by_cases hk : kv0.1 = c
        · rw [if_pos hk] at heq
          subst heq
          exact ⟨le_of_lt (calculateSectionMemoryUsage_pos _),
            fun _ => calculateSectionMemoryUsage_pos _⟩
        · rw [if_neg hk] at heq
          subst heq
          exact h kv0 hkv0

/-- `StreamInBiomeSection` keeps the memory bookkeeping invariant, so the
hypothesis of the cleanup-monotonicity theorem holds in every state the
streaming operations can produce. -/
theorem streamInBiomeSection_memInv (cfg : StreamingConfig)
    (Active : SectionMap) (PlayerLocation : Vec3) (BiomeType : EBiomeType)
    (Direction : Vec3) (CurrentTime : ℚ) (o : LoadOracle) (h : MemInv Active) :
    MemInv (StreamInBiomeSection cfg Active PlayerLocation BiomeType Direction
      CurrentTime o).1 := by
  simp only [StreamInBiomeSection]
  split
  next sec hfind =>
    intro kv hkv
    unfold mapUpdate at hkv
    rcases List.mem_map.mp hkv with ⟨kv0, hkv0, heq⟩
    by_cases hk : kv0.1 = targetSectionCoords cfg PlayerLocation Direction
    · rw [if_pos hk] at heq
      subst heq
      have hsec := h _ (mapFind_mem _ _ _ hfind)
      exact ⟨hsec.1, hsec.2⟩
    · rw [if_neg hk] at heq
      subst heq
      exact h kv0 hkv0
  next hfind =>
    split
    · exact h
    · split
      · exact fun kv hkv =>
          h kv ((afterForcedCleanup_sublist _ _ _ _).subset hkv)
      · apply loadSection_memInv
        intro kv hkv
        rcases List.mem_append.mp hkv with h1 | h2
        · exact h kv ((afterForcedCleanup_sublist _ _ _ _).subset h1)
        · have : kv = (targetSectionCoords cfg PlayerLocation Direction,
              CreateWorldSection cfg
                (targetSectionCoords cfg PlayerLocation Direction) BiomeType
                CurrentTime) := by
            simpa using h2
          subst this
          exact ⟨le_rfl, fun hl => absurd hl (by simp [CreateWorldSection])⟩

end BikeAdventure
